import Mathlib

/-
  Verification of the CBDC beam-verification engine (EC2 beam checks).

  Shallow embedding conventions:
  - Python floats are modelled as exact rationals.
  - Transcendental float operations (numpy sqrt, float power with a
    fractional exponent) are modelled as explicit function parameters of the
    embedded definitions; theorems that depend on their value carry the
    defining specification as a hypothesis.
  - A Python function that can fall off the end of a loop with a local
    variable unbound is modelled with Except (the UnboundLocalError path),
    and a function that can return the Python value None is modelled with
    Option. The embedded result type PyResult makes both paths explicit.
-/

/-- Error outcomes a Python function of this code base can raise. -/
inductive PyErr where
  | unboundLocal : PyErr
  | valueError : PyErr
deriving DecidableEq, Repr

/-- Result type mirroring Python control flow: ok wraps a returned value,
error wraps a raised exception. -/
inductive PyResult (α : Type) where
  | ok : α → PyResult α
  | error : PyErr → PyResult α
deriving DecidableEq, Repr

/-- Result of a control that in the source returns True, False or a
descriptive string (the indeterminate case). -/
inductive ControlOutcome where
  | pass : ControlOutcome
  | fail : ControlOutcome
  | indeterminate : ControlOutcome
deriving DecidableEq, Repr

namespace Crack_control

/-- Bar diameter matrix from E1_SLS_Crack.calculate_maximal_bar_diameter
(EC2 table 7.2N); rows are crack-width limits, columns stress levels. -/
def diameter_matrix : List (List ℚ) :=
  [[40, 32, 20, 16, 12, 10, 8, 6],
   [32, 25, 16, 12, 10, 8, 6, 5],
   [25, 16, 12, 8, 6, 5, 4, 0]]

/-- Reinforcement tension vector a from the source. -/
def stress_vector : List ℚ := [160, 200, 240, 280, 320, 360, 400, 450]

/-- Crack width vector w from the source. -/
def crack_width_vector : List ℚ := [0.4, 0.3, 0.2]

/-- Table entry at row k, column i. -/
def tableEntry (k i : ℕ) : ℚ := (diameter_matrix.getD k []).getD i 0

/-- Entry k of the crack width vector. -/
def wAt (k : ℕ) : ℚ := crack_width_vector.getD k 0

/-- Entry i of the stress vector. -/
def aAt (i : ℕ) : ℚ := stress_vector.getD i 0

/-- The outer loop of the source scans k = 0, 1 and assigns only when
w[k] >= w_max > w[k+1]; the conditions are mutually exclusive, so the loop
amounts to locating the bracketing row. -/
def wBracket (w_max : ℚ) : Option ℕ :=
  if wAt 0 ≥ w_max ∧ w_max > wAt 1 then some 0
  else if wAt 1 ≥ w_max ∧ w_max > wAt 2 then some 1
  else none

/-- The inner loop scans i = 0..6 and assigns only when
a[i] <= sigma < a[i+1]; the conditions are mutually exclusive, so the loop
amounts to locating the bracketing column. -/
def aBracket (sigma : ℚ) : Option ℕ :=
  if aAt 0 ≤ sigma ∧ sigma < aAt 1 then some 0
  else if aAt 1 ≤ sigma ∧ sigma < aAt 2 then some 1
  else if aAt 2 ≤ sigma ∧ sigma < aAt 3 then some 2
  else if aAt 3 ≤ sigma ∧ sigma < aAt 4 then some 3
  else if aAt 4 ≤ sigma ∧ sigma < aAt 5 then some 4
  else if aAt 5 ≤ sigma ∧ sigma < aAt 6 then some 5
  else if aAt 6 ≤ sigma ∧ sigma < aAt 7 then some 6
  else none

/-- The double interpolation executed at the bracketing pair (k, i):
first in the crack-width direction (x1, x2), then in the stress direction. -/
def interpolate (k i : ℕ) (w_max sigma : ℚ) : ℚ :=
  let x1 := tableEntry k i * (wAt (k+1) - w_max) / (wAt (k+1) - wAt k)
          + tableEntry (k+1) i * (w_max - wAt k) / (wAt (k+1) - wAt k)
  let x2 := tableEntry k (i+1) * (wAt (k+1) - w_max) / (wAt (k+1) - wAt k)
          + tableEntry (k+1) (i+1) * (w_max - wAt k) / (wAt (k+1) - wAt k)
  x1 * (aAt (i+1) - sigma) / (aAt (i+1) - aAt i)
    + x2 * (sigma - aAt i) / (aAt (i+1) - aAt i)

/-- The else-branch of the source: run both loops; if either finds no
bracketing index, the local max_bar_diameter is never assigned and the
final return raises UnboundLocalError. -/
def lookup (w_max sigma : ℚ) : PyResult (Option ℚ) :=
  match wBracket w_max with
  | none => PyResult.error PyErr.unboundLocal
  | some k =>
    match aBracket sigma with
    | none => PyResult.error PyErr.unboundLocal
    | some i => PyResult.ok (some (interpolate k i w_max sigma))

/-- E1_SLS_Crack.Crack_control.calculate_maximal_bar_diameter: stress below
160 is clamped to 160; stress strictly above 450 sets sigma to None and the
function returns None; otherwise the table interpolation runs. -/
def calculate_maximal_bar_diameter (w_max sigma : ℚ) : PyResult (Option ℚ) :=
  if sigma < 160 then lookup w_max 160
  else if sigma > 450 then PyResult.ok none
  else lookup w_max sigma

/-- E1_SLS_Crack.Crack_control.control_of_bar_diameter: a None diameter
yields the descriptive string (neither True nor False). -/
def control_of_bar_diameter (bar_diameter : ℚ) (max_bar_diameter : Option ℚ) :
    ControlOutcome :=
  match max_bar_diameter with
  | none => ControlOutcome.indeterminate
  | some m => if bar_diameter < m then ControlOutcome.pass else ControlOutcome.fail

end Crack_control

namespace Crack_control_prestressed

/-- E2_SLS_Crack.Crack_control_prestressed.calculate_maximal_bar_diameter is
textually identical to the E1 version. -/
def calculate_maximal_bar_diameter (w_max sigma : ℚ) : PyResult (Option ℚ) :=
  Crack_control.calculate_maximal_bar_diameter w_max sigma

end Crack_control_prestressed

namespace Beam

/-- A0_Results.Beam.control_crack: the source compares the control value
with True and returns a string in either case, so an indeterminate crack
outcome is reported as a sentence and never raises. -/
def control_crack (c : ControlOutcome) : String :=
  if c = ControlOutcome.pass then "Crack width is sufficient"
  else "Crack width is not sufficient"

end Beam

/-- Cement classes recognized by B0_Creep_number.calculate_t0_adjusted
(any other string raises ValueError there; the error path is outside the
claims about the creep numbers). -/
inductive CementClass where
  | S : CementClass
  | N : CementClass
  | R : CementClass
deriving DecidableEq, Repr

namespace Creep_number

/-- Exponent alpha_cement from B0_Creep_number.calculate_t0_adjusted. -/
def alpha_cement : CementClass → ℤ
  | CementClass.S => -1
  | CementClass.N => 0
  | CementClass.R => 1

/-- B0_Creep_number.calculate_h0, formula (B.6). -/
def calculate_h0 (Ac width height : ℚ) : ℚ :=
  (2 * Ac) / (2 * (width + height))

/-- B0_Creep_number.calculate_beta_fcm, formula (B.4); fpow models the
float power operator, here applied with exponent 0.5. -/
def calculate_beta_fcm (fpow : ℚ → ℚ → ℚ) (fcm : ℚ) : ℚ :=
  16.8 / fpow fcm (1/2)

/-- B0_Creep_number.calculate_phi_RH, formulas (B.3a), (B.3b), (B.8c). -/
def calculate_phi_RH (fpow : ℚ → ℚ → ℚ) (h0 fcm RH : ℚ) : ℚ :=
  let alpha_1 := fpow (35 / fcm) (7/10)
  let alpha_2 := fpow (35 / fcm) (1/5)
  if fcm ≤ 35 then 1 + (1 - RH / 100) / (0.1 * fpow h0 (1/3))
  else (1 + ((1 - RH / 100) / (0.1 * fpow h0 (1/3))) * alpha_1) * alpha_2

/-- B0_Creep_number.calculate_t0_adjusted, formula (B.9); the power with
integer exponent alpha_cement is exact in the rationals. -/
def calculate_t0_adjusted (fpow : ℚ → ℚ → ℚ) (t0 : ℚ) (cement_class : CementClass) : ℚ :=
  max (t0 * (9 / (2 + fpow t0 (6/5)) + 1) ^ (alpha_cement cement_class)) (1/2)

/-- B0_Creep_number.calculate_beta_t0, formula (B.5). -/
def calculate_beta_t0 (fpow : ℚ → ℚ → ℚ) (t0_adjusted : ℚ) : ℚ :=
  1 / (0.1 + fpow t0_adjusted (1/5))

/-- B0_Creep_number.calculate_phi_0, formula (B.2). -/
def calculate_phi_0 (phi_RH beta_fcm beta_t0 : ℚ) : ℚ :=
  phi_RH * beta_fcm * beta_t0

/-- B0_Creep_number.calculate_beta_c, formulas (B.7), (B.8a), (B.8b);
the power with the natural exponent 18 is exact in the rationals. -/
def calculate_beta_c (fpow : ℚ → ℚ → ℚ) (t0 t RH h0 fcm : ℚ) : ℚ :=
  let alpha_3 := fpow (35 / fcm) (1/2)
  let beta_H :=
    if fcm ≤ 35 then min (1.5 * (1 + (0.012 * RH) ^ (18:ℕ)) * h0 + 250) 1500
    else min (1.5 * (1 + (0.012 * RH) ^ (18:ℕ)) * h0 + 250 * alpha_3) (1500 * alpha_3)
  fpow ((t - t0) / (beta_H + t - t0)) (3/10)

/-- B0_Creep_number.calcualte_phi, formula (B.1); the source spells the
name this way. -/
def calcualte_phi (phi_0 beta_c : ℚ) : ℚ :=
  phi_0 * beta_c

end Creep_number

/-- Attributes computed by B0_Creep_number.Creep_number.__init__. -/
structure Creep_number where
  h0 : ℚ
  beta_fcm : ℚ
  phi_RH : ℚ
  t0_adjusted_self : ℚ
  t0_adjusted_live : ℚ
  beta_t0_self : ℚ
  beta_t0_live : ℚ
  phi_0_self : ℚ
  phi_0_live : ℚ
  beta_c : ℚ
  phi_selfload : ℚ
  phi_liveload : ℚ

namespace Creep_number

/-- The attribute assignments of B0_Creep_number.Creep_number.__init__, in
source order. The single beta_c attribute is computed with the self-load
age t0_self and is used for both final creep numbers. -/
def make (fpow : ℚ → ℚ → ℚ) (Ac width height fcm t0_self t0_live RH : ℚ)
    (cement_class : CementClass) (t : ℚ) : Creep_number :=
  let h0 := calculate_h0 Ac width height
  let beta_fcm := calculate_beta_fcm fpow fcm
  let phi_RH := calculate_phi_RH fpow h0 fcm RH
  let t0_adjusted_self := calculate_t0_adjusted fpow t0_self cement_class
  let t0_adjusted_live := calculate_t0_adjusted fpow t0_live cement_class
  let beta_t0_self := calculate_beta_t0 fpow t0_adjusted_self
  let beta_t0_live := calculate_beta_t0 fpow t0_adjusted_live
  let phi_0_self := calculate_phi_0 phi_RH beta_fcm beta_t0_self
  let phi_0_live := calculate_phi_0 phi_RH beta_fcm beta_t0_live
  let beta_c := calculate_beta_c fpow t0_self t RH h0 fcm
  { h0 := h0
    beta_fcm := beta_fcm
    phi_RH := phi_RH
    t0_adjusted_self := t0_adjusted_self
    t0_adjusted_live := t0_adjusted_live
    beta_t0_self := beta_t0_self
    beta_t0_live := beta_t0_live
    phi_0_self := phi_0_self
    phi_0_live := phi_0_live
    beta_c := beta_c
    phi_selfload := calcualte_phi phi_0_self beta_c
    phi_liveload := calcualte_phi phi_0_live beta_c }

end Creep_number

namespace Stress

/-- I2_SLS_Stress.Stress.control_stress. The allowed pressure is the
positive number 0.6 * fck and the allowed tension is fctm. For a cracked
section (control_M_cr true) the cracked top stress is tested; otherwise
the loop over the uncracked fiber stresses returns on its very first
iteration in both branches, so only the head of the list is ever tested,
and an empty list makes the function fall through and return Python None
(modelled as Option.none). -/
def control_stress (fck fctm : ℚ) (control_M_cr : Bool) (sigma_c_cracked : ℚ)
    (sigma_c_uncracked : List ℚ) : Option Bool :=
  let allowed_pressure := 0.6 * fck
  let allowed_tension := fctm
  if control_M_cr then
    if sigma_c_cracked < 0 then
      some (decide (allowed_pressure < sigma_c_cracked))
    else
      some (decide (allowed_tension > sigma_c_cracked))
  else
    match sigma_c_uncracked with
    | [] => none
    | s :: _ =>
      if s < 0 then some (decide (allowed_pressure < s))
      else some (decide (allowed_tension > s))

end Stress

namespace Deflection

/-- F1_SLS_Deflection.Deflection.control_deflection: the limit is
length * 1000 / 250 and the control passes only on the strict
comparison max_deflection > total_deflection. -/
def control_deflection (length total_deflection : ℚ) : Bool :=
  let max_deflection := (length * 1000) / 250
  decide (max_deflection > total_deflection)

end Deflection

namespace Cross_section

/-- B0_Cross_section.Cross_section.get_c_min_b (EC2 table NA.4.2). -/
def get_c_min_b (bar_diameter : ℚ) : ℚ :=
  max bar_diameter 10

/-- B0_Cross_section.Cross_section.get_c_min_dur (EC2 table NA.4.4N); an
unrecognized exposure class raises ValueError. -/
def get_c_min_dur (exposure_class : String) (c_min_b : ℚ) : PyResult ℚ :=
  if exposure_class = ("X0") then PyResult.ok c_min_b
  else if exposure_class = ("XC1") then PyResult.ok 15
  else if exposure_class ∈ [("XC2"), ("XC3"), ("XC4")] then PyResult.ok 25
  else if exposure_class ∈ [("XD1"), ("XS1"), ("XD2"), ("XD3"), ("XS2")] then PyResult.ok 40
  else if exposure_class = ("XS3") then PyResult.ok 50
  else PyResult.error PyErr.valueError

/-- B0_Cross_section.Cross_section.calculate_cnom (EC2 4.4.1.1-4.4.1.3):
c_min = max(c_min_b, c_min_dur, 10), delta_c_dev = 10. -/
def calculate_cnom (c_min_b c_min_dur : ℚ) : ℚ :=
  max (max c_min_b c_min_dur) 10 + 10

/-- Composition used by __init__: the exposure-class minimum as a function
of the bar diameter, through c_min_b. -/
def c_min_dur_of (exposure_class : String) (bar_diameter : ℚ) : PyResult ℚ :=
  get_c_min_dur exposure_class (get_c_min_b bar_diameter)

end Cross_section

namespace ULS

/-- Balanced compression-zone factor alpha_bal from C1_ULS.calculate_alpha
(Soerensen 4.20). -/
def alpha_bal (eps_cu3 eps_yd : ℚ) : ℚ :=
  eps_cu3 / (eps_cu3 + eps_yd)

/-- Balanced reinforcement area As_balanced from C1_ULS.calculate_alpha
(Soerensen 4.21). -/
def As_balanced (eps_cu3 eps_yd width d fcd fyd lambda_factor netta : ℚ) : ℚ :=
  lambda_factor * netta * alpha_bal eps_cu3 eps_yd * width * d * fcd / fyd

/-- The over-reinforced branch of C1_ULS.calculate_alpha (Soerensen 4.18):
quadratic coefficients a, b, c and the larger root picked through max;
sqrt models numpy sqrt. -/
def alpha_over (sqrt : ℚ → ℚ) (eps_cu3 As Es fcd width d lambda_factor netta : ℚ) : ℚ :=
  let a := lambda_factor * netta * fcd * width * d
  let b := eps_cu3 * Es * As
  let c := - (eps_cu3 * Es * As)
  max ((- b + sqrt (b ^ 2 - 4 * a * c)) / (2 * a))
      ((- b - sqrt (b ^ 2 - 4 * a * c)) / (2 * a))

/-- C1_ULS.ULS.calculate_alpha: under-reinforced closed form when
As <= As_balanced (Soerensen 4.19), otherwise the larger quadratic root. -/
def calculate_alpha (sqrt : ℚ → ℚ)
    (eps_cu3 eps_yd As Es fcd width d fyd lambda_factor netta : ℚ) : ℚ :=
  if As ≤ As_balanced eps_cu3 eps_yd width d fcd fyd lambda_factor netta then
    (fyd * As) / (lambda_factor * netta * fcd * width * d)
  else
    alpha_over sqrt eps_cu3 As Es fcd width d lambda_factor netta

end ULS

namespace ULS_prestress_and_ordinary

/-- C3_ULS.ULS_prestress_and_ordinary.calculate_alpha: balance threshold
alpha_b and Apb (Soerensen 7.7, 7.8), under-reinforced closed form
(Soerensen 7.9) or larger quadratic root (Soerensen 7.10), and the final
return of the absolute value abs(alpha). -/
def calculate_alpha (sqrt : ℚ → ℚ)
    (eps_cu3 Ap Ep fcd eps_diff width d fpd lambda_factor netta fyd As : ℚ) : ℚ :=
  let alpha_b := eps_cu3 / (eps_cu3 + fpd / Ep - eps_diff)
  let Apb := (netta * lambda_factor * alpha_b * width * d * fcd + fyd * As) / fpd
  let alpha :=
    if Ap ≤ Apb then
      (fpd * Ap - fyd * As) / (netta * lambda_factor * fcd * width * d)
    else
      let a := netta * lambda_factor * fcd * width * d
      let b := fyd * As + (eps_cu3 - eps_diff) * Ep * Ap
      let c := - (eps_cu3 * Ep * Ap)
      max ((- b + sqrt (b ^ 2 - 4 * a * c)) / (2 * a))
          ((- b - sqrt (b ^ 2 - 4 * a * c)) / (2 * a))
  |alpha|

end ULS_prestress_and_ordinary

namespace Cracked_Stress

/-- Coefficient list of the cubic from G2_SLS_Cracked.calculate_alpha
(Soerensen 6.24), highest degree first, as passed to numpy roots. -/
def coefficients (d e a netta ro_l : ℚ) : List ℚ :=
  [d / (6 * (e + a)), 0.5 * (1 - d / (e + a)), netta * ro_l, - (netta * ro_l)]

/-- Value of the cubic with coefficient list [c3, c2, c1, c0] at x. -/
def cubicValue (c3 c2 c1 c0 x : ℚ) : ℚ :=
  c3 * x ^ 3 + c2 * x ^ 2 + c1 * x + c0

/-- The root-selection loop of G2_SLS_Cracked.calculate_alpha: scan the
roots delivered by numpy and return the first one strictly between 0 and
1; when no root qualifies the loop ends and the function implicitly
returns Python None. -/
def calculate_alpha (roots : List ℚ) : Option ℚ :=
  roots.find? (fun num => decide (0 < num) && decide (num < 1))

end Cracked_Stress

namespace Material

/-- Material factor gamma for prestressed reinforcement from
B0_Material.Material.__init__ (EC2 NA.2.4.2.4(1)). -/
def gamma_prestressed_reinforcement : ℚ := 1.15

/-- B0_Material.Material.get_index_prestress. The name may be absent
(Python None). A recognized name with an unlisted diameter falls through
its match statement, and an unrecognized name falls through the final
match statement; in both cases the function ends without a return
statement and yields Python None. No branch raises. -/
def get_index_prestress (prestress_name : Option String) (prestress_diameter : ℚ) :
    Option ℕ :=
  if prestress_name = some ("Y1860S3") then
    if prestress_diameter = 6.5 then some 1
    else if prestress_diameter = 6.8 then some 2
    else if prestress_diameter = 7.5 then some 3
    else none
  else if prestress_name = some ("Y1860S7") then
    if prestress_diameter = 7 then some 4
    else if prestress_diameter = 9 then some 5
    else if prestress_diameter = 11 then some 6
    else if prestress_diameter = 12.5 then some 7
    else if prestress_diameter = 13 then some 8
    else if prestress_diameter = 15.2 then some 9
    else if prestress_diameter = 16 then some 10
    else none
  else if prestress_name = some ("Y1770S7") then
    if prestress_diameter = 15.2 then some 11
    else if prestress_diameter = 16 then some 12
    else if prestress_diameter = 18 then some 13
    else none
  else if prestress_name = none then none
  else if prestress_name = some ("Y19060S3") then some 0
  else if prestress_name = some ("Y1860S7G") then some 14
  else if prestress_name = some ("Y1820S7G") then some 15
  else if prestress_name = some ("Y1700S7G") then some 16
  else if prestress_name = some ("Y2160S3") then some 17
  else if prestress_name = some ("Y2060S3") then some 18
  else if prestress_name = some ("Y1960S3") then some 19
  else if prestress_name = some ("Y2160S7") then some 20
  else if prestress_name = some ("Y2060S7") then some 21
  else if prestress_name = some ("Y1960S7") then some 22
  else none

/-- B0_Material.Material.get_fpk: 0 when the index is None, else the table
entry. -/
def get_fpk (index_prestress : Option ℕ) : ℚ :=
  match index_prestress with
  | none => 0
  | some i =>
    ([1960, 1860, 1860, 1860, 1860, 1860, 1860, 1860, 1860, 1860, 1860, 1770,
      1770, 1770, 1860, 1820, 1700, 2160, 2060, 1960, 2160, 2060, 1960] : List ℚ).getD i 0

/-- B0_Material.Material.get_Ap: 0 when the index is None, else the table
entry. -/
def get_Ap (index_prestress : Option ℕ) : ℚ :=
  match index_prestress with
  | none => 0
  | some i =>
    ([13.6, 21.1, 23.4, 20, 30, 50, 75, 93, 100,
      140, 150, 140, 150, 200, 112, 165, 223, 13.6, 13.6, 21.2, 28.2, 30, 50] : List ℚ).getD i 0

/-- B0_Material.Material.get_Fpk: 0 when the index is None, else the table
entry. -/
def get_Fpk (index_prestress : Option ℕ) : ℚ :=
  match index_prestress with
  | none => 0
  | some i =>
    ([26.6, 39.2, 43.5, 54, 56, 93, 140, 173, 186, 260, 279, 248, 265, 354, 209, 300,
      380, 29.4, 28, 41.4, 60.9, 62, 98] : List ℚ).getD i 0

/-- B0_Material.Material.get_Fp01k: 0 when the index is None, else the
table entry. -/
def get_Fp01k (index_prestress : Option ℕ) : ℚ :=
  match index_prestress with
  | none => 0
  | some i =>
    ([22.9, 33.8, 37.4, 46.4, 48, 80, 120, 149, 160, 224, 240, 213, 228, 304, 180, 258,
      327, 26.2, 24.1, 35.6, 52.4, 53, 84] : List ℚ).getD i 0

/-- B0_Material.Material.calculate_fp01k. -/
def calculate_fp01k (Fp01k Ap : ℚ) (index_prestress : Option ℕ) : ℚ :=
  if index_prestress = none then 0 else Fp01k * 1000 / Ap

/-- B0_Material.Material.calculate_fpd. -/
def calculate_fpd (fp01k : ℚ) (index_prestress : Option ℕ) : ℚ :=
  if index_prestress = none then 0 else fp01k / gamma_prestressed_reinforcement

/-- The name/diameter pairs that receive an index in get_index_prestress:
the three diameter-discriminated families and the ten names matched with
no diameter constraint. -/
def in_strand_table (nm : String) (dia : ℚ) : Prop :=
  (nm = "Y1860S3" ∧ dia ∈ ([6.5, 6.8, 7.5] : List ℚ))
  ∨ (nm = "Y1860S7" ∧ dia ∈ ([7, 9, 11, 12.5, 13, 15.2, 16] : List ℚ))
  ∨ (nm = "Y1770S7" ∧ dia ∈ ([15.2, 16, 18] : List ℚ))
  ∨ nm ∈ (["Y19060S3", "Y1860S7G", "Y1820S7G", "Y1700S7G", "Y2160S3",
           "Y2060S3", "Y1960S3", "Y2160S7", "Y2060S7", "Y1960S7"] : List String)

end Material

/-- Helper: for any stress in the half-open interval from 160 to 450 the
column search of the crack table finds a bracketing index. -/
theorem crack_stress_bracket_exists (sigma : ℚ) (h1 : 160 ≤ sigma) (h2 : sigma < 450) :
    ∃ i, Crack_control.aBracket sigma = some i := by
  unfold Crack_control.aBracket
  simp only [Crack_control.aAt, Crack_control.stress_vector, List.getD]
  norm_num
  split_ifs with g1 g2 g3 g4 g5 g6 g7
  all_goals try exact ⟨_, rfl⟩
  exfalso
  push_neg at g1 g2 g3 g4 g5 g6 g7
  have s1 := g1 h1
  have s2 := g2 (by linarith)
  have s3 := g3 (by linarith)
  have s4 := g4 (by linarith)
  have s5 := g5 (by linarith)
  have s6 := g6 (by linarith)
  have s7 := g7 (by linarith)
  linarith

/-- Helper: a crack-width limit in the interval reachable by the engine
(above 0.3 and at most 0.4) is bracketed by the first table row. -/
theorem crack_width_bracket_row0 (w_max : ℚ) (hw1 : 0.3 < w_max) (hw2 : w_max ≤ 0.4) :
    Crack_control.wBracket w_max = some 0 := by
  unfold Crack_control.wBracket
  simp only [Crack_control.wAt, Crack_control.crack_width_vector, List.getD]
  norm_num at hw1 hw2 ⊢
  constructor <;> linarith

/-- Helper: at stress exactly 450 the column search fails because the last
comparison is strict on the right. -/
theorem crack_stress_bracket_at_450 : Crack_control.aBracket 450 = none := by
  unfold Crack_control.aBracket
  simp only [Crack_control.aAt, Crack_control.stress_vector, List.getD]
  norm_num

/-- C1 (amended): for a crack-width limit reachable by the engine, every
stress strictly below 450 (with values below 160 clamped up to 160) yields
a numeric maximum bar diameter; stress strictly above 450 yields the
distinct indeterminate outcome, which is neither pass nor fail, raises
nothing, and is rendered by the results layer as a sentence, so the other
checks of the analysis are unaffected; stress exactly 450, however, leaves
the local variable of the lookup unassigned and raises UnboundLocalError,
which is what forces the amendment of the original claim. -/
theorem C1_crack_table_domain (w_max sigma bar_diameter : ℚ)
    (hw1 : (0.3:ℚ) < w_max) (hw2 : w_max ≤ (0.4:ℚ)) :
    (sigma < 450 →
      ∃ x, Crack_control.calculate_maximal_bar_diameter w_max sigma = PyResult.ok (some x))
    ∧ (450 < sigma →
        Crack_control.calculate_maximal_bar_diameter w_max sigma = PyResult.ok none
        ∧ Crack_control.control_of_bar_diameter bar_diameter none = ControlOutcome.indeterminate
        ∧ ControlOutcome.indeterminate ≠ ControlOutcome.pass
        ∧ ControlOutcome.indeterminate ≠ ControlOutcome.fail
        ∧ Beam.control_crack ControlOutcome.indeterminate = "Crack width is not sufficient")
    ∧ (sigma = 450 →
        Crack_control.calculate_maximal_bar_diameter w_max sigma
          = PyResult.error PyErr.unboundLocal) := by
  have hwb := crack_width_bracket_row0 w_max hw1 hw2
  refine ⟨?_, ?_, ?_⟩
  · intro hs
    by_cases c1 : sigma < 160
    · obtain ⟨i, hi⟩ := crack_stress_bracket_exists 160 le_rfl (by norm_num)
      refine ⟨Crack_control.interpolate 0 i w_max 160, ?_⟩
      unfold Crack_control.calculate_maximal_bar_diameter
      rw [if_pos c1]
      simp only [Crack_control.lookup, hwb, hi]
    · obtain ⟨i, hi⟩ := crack_stress_bracket_exists sigma (by linarith) hs
      refine ⟨Crack_control.interpolate 0 i w_max sigma, ?_⟩
      unfold Crack_control.calculate_maximal_bar_diameter
      rw [if_neg c1, if_neg (by linarith : ¬ sigma > 450)]
      simp only [Crack_control.lookup, hwb, hi]
  · intro hs
    refine ⟨?_, rfl, by simp, by simp, rfl⟩
    unfold Crack_control.calculate_maximal_bar_diameter
    rw [if_neg (by linarith : ¬ sigma < 160), if_pos (by linarith : sigma > 450)]
  · intro hs
    subst hs
    unfold Crack_control.calculate_maximal_bar_diameter
    rw [if_neg (by norm_num : ¬ (450:ℚ) < 160), if_neg (by norm_num : ¬ (450:ℚ) > 450)]
    simp only [Crack_control.lookup, hwb, crack_stress_bracket_at_450]

/-- C1 witness: a concrete in-domain query returning a numeric diameter. -/
theorem C1_crack_table_domain_witness :
    ∃ x, Crack_control.calculate_maximal_bar_diameter (7/20) 170 = PyResult.ok (some x) :=
  (C1_crack_table_domain (7/20) 170 20 (by norm_num) (by norm_num)).1 (by norm_num)

/-- C1 counterexample: at stress exactly 450, inside the domain named by
the claim, the lookup raises instead of returning a numeric diameter. -/
theorem C1_stress_450_crashes :
    Crack_control.calculate_maximal_bar_diameter (7/20) 450
      = PyResult.error PyErr.unboundLocal := by
  unfold Crack_control.calculate_maximal_bar_diameter
  rw [if_neg (by norm_num : ¬ (450:ℚ) < 160), if_neg (by norm_num : ¬ (450:ℚ) > 450)]
  simp only [Crack_control.lookup,
    crack_width_bracket_row0 (7/20) (by norm_num) (by norm_num),
    crack_stress_bracket_at_450]

/-- C5 (amended): the double interpolation reproduces the exact table
entry at every vertex whose crack width lies in the first two rows (0.4,
0.3) and whose stress lies in the first seven columns (160 to 400), for
both the ordinary and the prestressed crack control; in particular crack
width 0.3 with stress 240 gives maximum bar diameter 16. Vertices on the
0.2 row or the 450 column are excluded because the lookup raises there
(see the counterexample). -/
theorem C5_table_vertices :
    (∀ (ki : Fin 2) (ii : Fin 7),
      Crack_control.calculate_maximal_bar_diameter (Crack_control.wAt ki) (Crack_control.aAt ii)
        = PyResult.ok (some (Crack_control.tableEntry ki ii))
      ∧ Crack_control_prestressed.calculate_maximal_bar_diameter
          (Crack_control.wAt ki) (Crack_control.aAt ii)
        = PyResult.ok (some (Crack_control.tableEntry ki ii)))
    ∧ Crack_control.calculate_maximal_bar_diameter 0.3 240 = PyResult.ok (some 16)
    ∧ Crack_control_prestressed.calculate_maximal_bar_diameter 0.3 240
        = PyResult.ok (some 16) := by
  have hmain : ∀ (ki : Fin 2) (ii : Fin 7),
      Crack_control.calculate_maximal_bar_diameter (Crack_control.wAt ki) (Crack_control.aAt ii)
        = PyResult.ok (some (Crack_control.tableEntry ki ii)) := by
    intro ki ii
    fin_cases ki <;> fin_cases ii <;>
      norm_num [Crack_control.calculate_maximal_bar_diameter, Crack_control.lookup,
        Crack_control.wBracket, Crack_control.aBracket, Crack_control.interpolate,
        Crack_control.tableEntry, Crack_control.wAt, Crack_control.aAt,
        Crack_control.diameter_matrix, Crack_control.stress_vector,
        Crack_control.crack_width_vector, List.getD]
  have h324 : Crack_control.calculate_maximal_bar_diameter 0.3 240
      = PyResult.ok (some 16) := by
    norm_num [Crack_control.calculate_maximal_bar_diameter, Crack_control.lookup,
      Crack_control.wBracket, Crack_control.aBracket, Crack_control.interpolate,
      Crack_control.tableEntry, Crack_control.wAt, Crack_control.aAt,
      Crack_control.diameter_matrix, Crack_control.stress_vector,
      Crack_control.crack_width_vector, List.getD]
  exact ⟨fun ki ii => ⟨hmain ki ii, hmain ki ii⟩, h324, h324⟩

/-- C5 counterexample: the vertices with crack width 0.2 (here with stress
160, table entry 25) and with stress 450 (here with crack width 0.4, table
entry 6) terminate in UnboundLocalError instead of returning the entry. -/
theorem C5_vertex_counterexample :
    Crack_control.calculate_maximal_bar_diameter 0.2 160 = PyResult.error PyErr.unboundLocal
    ∧ Crack_control.calculate_maximal_bar_diameter 0.4 450
        = PyResult.error PyErr.unboundLocal := by
  constructor <;>
    norm_num [Crack_control.calculate_maximal_bar_diameter, Crack_control.lookup,
      Crack_control.wBracket, Crack_control.aBracket, Crack_control.wAt, Crack_control.aAt,
      Crack_control.stress_vector, Crack_control.crack_width_vector, List.getD]

/-- C2 (amended): both creep numbers are the product of the standardized
creep number phi_0 of the corresponding load with the single attribute
beta_c, and that attribute is computed from the self-load application age
t0_self; in particular the live-load creep number also uses the
time-development factor of the self-load age, not of t0_live. -/
theorem C2_creep_beta_c_shared (fpow : ℚ → ℚ → ℚ)
    (Ac width height fcm t0_self t0_live RH : ℚ) (cement_class : CementClass) (t : ℚ) :
    (Creep_number.make fpow Ac width height fcm t0_self t0_live RH cement_class t).phi_selfload
      = (Creep_number.make fpow Ac width height fcm t0_self t0_live RH cement_class t).phi_0_self
        * Creep_number.calculate_beta_c fpow t0_self t RH
            (Creep_number.calculate_h0 Ac width height) fcm
    ∧ (Creep_number.make fpow Ac width height fcm t0_self t0_live RH cement_class t).phi_liveload
      = (Creep_number.make fpow Ac width height fcm t0_self t0_live RH cement_class t).phi_0_live
        * Creep_number.calculate_beta_c fpow t0_self t RH
            (Creep_number.calculate_h0 Ac width height) fcm := by
  constructor <;> rfl

/-- C2 counterexample: with the float power modelled by a concrete
function, a 500 by 500 section of a concrete with fcm 28, humidity 100,
cement class N, self-load at 7 days and live-load at 90 days, the
live-load creep number differs from phi_0_live times the time-development
factor evaluated at the live-load age 90, refuting the claim as stated. -/
theorem C2_liveload_beta_c_counterexample :
    (Creep_number.make (fun x _ => x) 250000 500 500 28 7 90 100 CementClass.N 18263).phi_liveload
      ≠ (Creep_number.make (fun x _ => x) 250000 500 500 28 7 90 100 CementClass.N 18263).phi_0_live
        * Creep_number.calculate_beta_c (fun x _ => x) 90 18263 100
            (Creep_number.calculate_h0 250000 500 500) 28 := by
  norm_num [Creep_number.make, Creep_number.calculate_h0, Creep_number.calculate_beta_fcm,
    Creep_number.calculate_phi_RH, Creep_number.calculate_t0_adjusted, Creep_number.alpha_cement,
    Creep_number.calculate_beta_t0, Creep_number.calculate_phi_0, Creep_number.calculate_beta_c,
    Creep_number.calcualte_phi, max_def, min_def]

/-- C3: evaluation of the stress control at inputs where the claim fixes
the outcome. First conjunct: the section is cracked and the governing
cracked stress is a compression of magnitude 1 with fck 30, well within
0.6 times fck, so the claim requires True, but the code compares the
positive limit 18 against the negative stress and returns False. Second
conjunct: the section is uncracked and the second and third fiber stresses
100 exceed fctm 2.9, so the claim requires False, but the loop returns
after testing only the first fiber and yields True. -/
theorem C3_stress_control_code_bug :
    (|(-1 : ℚ)| ≤ 0.6 * 30 ∧ Stress.control_stress 30 (29/10) true (-1) [] = some false)
    ∧ ((100:ℚ) > 29/10 ∧ Stress.control_stress 30 (29/10) false 0 [1, 100, 100] = some true) := by
  refine ⟨⟨by norm_num, ?_⟩, ⟨by norm_num, ?_⟩⟩ <;> norm_num [Stress.control_stress]

/-- C4: continuity of the ordinary ULS alpha computation at the balance
point. With positive material and geometry parameters, the design yield
strain related to fyd and Es as in B0_Material (eps_yd = fyd / Es), and a
square-root operation satisfying its defining property on the discriminant
of the over-reinforced quadratic, the value computed by calculate_alpha at
As equal to As_balanced (the under-reinforced closed form) coincides with
the larger root selected by the over-reinforced formula at the same As. -/
theorem C4_alpha_continuity_at_balance (sqrt : ℚ → ℚ)
    (eps_cu3 eps_yd Es fcd width d fyd lambda_factor netta : ℚ)
    (h1 : 0 < eps_cu3) (h2 : 0 < eps_yd) (h3 : 0 < Es) (h4 : 0 < fcd) (h5 : 0 < width)
    (h6 : 0 < d) (h7 : 0 < fyd) (h8 : 0 < lambda_factor) (h9 : 0 < netta)
    (heps : eps_yd = fyd / Es)
    (hs0 : 0 ≤ sqrt ((eps_cu3 * Es * ULS.As_balanced eps_cu3 eps_yd width d fcd fyd lambda_factor netta) ^ 2
      - 4 * (lambda_factor * netta * fcd * width * d)
        * (- (eps_cu3 * Es * ULS.As_balanced eps_cu3 eps_yd width d fcd fyd lambda_factor netta))))
    (hs2 : sqrt ((eps_cu3 * Es * ULS.As_balanced eps_cu3 eps_yd width d fcd fyd lambda_factor netta) ^ 2
      - 4 * (lambda_factor * netta * fcd * width * d)
        * (- (eps_cu3 * Es * ULS.As_balanced eps_cu3 eps_yd width d fcd fyd lambda_factor netta))) ^ 2
      = (eps_cu3 * Es * ULS.As_balanced eps_cu3 eps_yd width d fcd fyd lambda_factor netta) ^ 2
      - 4 * (lambda_factor * netta * fcd * width * d)
        * (- (eps_cu3 * Es * ULS.As_balanced eps_cu3 eps_yd width d fcd fyd lambda_factor netta))) :
    ULS.calculate_alpha sqrt eps_cu3 eps_yd
        (ULS.As_balanced eps_cu3 eps_yd width d fcd fyd lambda_factor netta)
        Es fcd width d fyd lambda_factor netta
      = ULS.alpha_over sqrt eps_cu3
        (ULS.As_balanced eps_cu3 eps_yd width d fcd fyd lambda_factor netta)
        Es fcd width d lambda_factor netta := by
  have hsum : 0 < eps_cu3 + eps_yd := by linarith
  have ha : 0 < lambda_factor * netta * fcd * width * d := by positivity
  set ab := ULS.alpha_bal eps_cu3 eps_yd with hab
  have hab_pos : 0 < ab := div_pos h1 hsum
  have hab_lt : ab < 1 := by
    rw [hab, ULS.alpha_bal, div_lt_one hsum]; linarith
  set A := ULS.As_balanced eps_cu3 eps_yd width d fcd fyd lambda_factor netta with hA
  have hA_pos : 0 < A := by
    rw [hA, ULS.As_balanced, ← hab]; positivity
  set a := lambda_factor * netta * fcd * width * d with haa
  set b := eps_cu3 * Es * A with hbb
  have hb_pos : 0 < b := by positivity
  have hfyA : fyd * A = a * ab := by
    rw [hA, ULS.As_balanced, ← hab, haa]
    field_simp
    ring
  have hkey : a * ab ^ 2 = b * (1 - ab) := by
    rw [hbb, hA, ULS.As_balanced, ← hab, haa, hab, ULS.alpha_bal, heps]
    field_simp
    ring
  have hD : b ^ 2 - 4 * a * (- b) = (2 * a * ab + b) ^ 2 := by
    linear_combination (-4 * a) * hkey
  have hTpos : 0 ≤ 2 * a * ab + b := by positivity
  set s := sqrt (b ^ 2 - 4 * a * (- b)) with hss
  have hs_eq : s = 2 * a * ab + b := by
    have hfac : (s - (2 * a * ab + b)) * (s + (2 * a * ab + b)) = 0 := by
      linear_combination hs2 + hD
    rcases mul_eq_zero.1 hfac with hc | hc
    · linarith
    · linarith
  rw [ULS.calculate_alpha, if_pos (le_refl A), ULS.alpha_over]
  simp only [← haa, ← hbb, ← hss]
  rw [hs_eq, hfyA]
  rw [max_eq_left ((div_le_div_iff_of_pos_right (by linarith : (0:ℚ) < 2 * a)).mpr (by linarith))]
  field_simp

/-- C4 witness: a concrete balanced configuration on which the theorem
applies with a rational square root. -/
theorem C4_alpha_continuity_witness :
    ULS.calculate_alpha (fun _ => 3) 1 1 (ULS.As_balanced 1 1 1 1 2 1 1 1) 1 2 1 1 1 1 1
      = ULS.alpha_over (fun _ => 3) 1 (ULS.As_balanced 1 1 1 1 2 1 1 1) 1 2 1 1 1 1 :=
  C4_alpha_continuity_at_balance (fun _ => 3) 1 1 1 2 1 1 1 1 1 (by norm_num) (by norm_num)
    (by norm_num) (by norm_num) (by norm_num) (by norm_num) (by norm_num) (by norm_num)
    (by norm_num) (by norm_num)
    (by norm_num [ULS.As_balanced, ULS.alpha_bal])
    (by norm_num [ULS.As_balanced, ULS.alpha_bal])

/-- C6: evaluation of the cracked-section root selection at an input with
no root in the open unit interval. With d 300, e 50, a 50 and
reinforcement ratio 0 the coefficient list is the cubic one half x cubed
minus x squared, which factors as one half x squared times x minus 2, so
its roots are 0 and 2 and none lies strictly between 0 and 1; the
embedded loop then returns Python None silently instead of failing with a
NoValidRoot error as the claim requires. -/
theorem C6_no_valid_root_returns_none :
    Cracked_Stress.coefficients 300 50 50 6 0 = [1/2, -1, 0, 0]
    ∧ (∀ x : ℚ, Cracked_Stress.cubicValue (1/2) (-1) 0 0 x = (1/2) * x ^ 2 * (x - 2))
    ∧ Cracked_Stress.cubicValue (1/2) (-1) 0 0 0 = 0
    ∧ Cracked_Stress.cubicValue (1/2) (-1) 0 0 2 = 0
    ∧ Cracked_Stress.calculate_alpha [0, 0, 2] = none := by
  refine ⟨?_, fun x => by unfold Cracked_Stress.cubicValue; ring, ?_, ?_, ?_⟩
  · norm_num [Cracked_Stress.coefficients]
  · norm_num [Cracked_Stress.cubicValue]
  · norm_num [Cracked_Stress.cubicValue]
  · norm_num [Cracked_Stress.calculate_alpha, List.find?]

/-- C7 (amended): for every bar diameter, the recognized exposure classes
other than X0 map to the fixed minimum covers of their category group
(XC1 to 15, XC2 to XC4 to 25, the XD and XS1/XS2 group to 40, XS3 to 50),
independently of the bar diameter, and the nominal cover is the maximum of
the bonding minimum, the class minimum and 10, plus the fixed 10 of the
execution deviation; for X0, however, the class minimum equals the bonding
minimum max(bar diameter, 10) and therefore depends on the bar diameter,
which is what forces the amendment. -/
theorem C7_cover_amended (bar_diameter : ℚ) :
    Cross_section.c_min_dur_of ("XC1") bar_diameter = PyResult.ok 15
    ∧ Cross_section.c_min_dur_of ("XC2") bar_diameter = PyResult.ok 25
    ∧ Cross_section.c_min_dur_of ("XC3") bar_diameter = PyResult.ok 25
    ∧ Cross_section.c_min_dur_of ("XC4") bar_diameter = PyResult.ok 25
    ∧ Cross_section.c_min_dur_of ("XD1") bar_diameter = PyResult.ok 40
    ∧ Cross_section.c_min_dur_of ("XD2") bar_diameter = PyResult.ok 40
    ∧ Cross_section.c_min_dur_of ("XD3") bar_diameter = PyResult.ok 40
    ∧ Cross_section.c_min_dur_of ("XS1") bar_diameter = PyResult.ok 40
    ∧ Cross_section.c_min_dur_of ("XS2") bar_diameter = PyResult.ok 40
    ∧ Cross_section.c_min_dur_of ("XS3") bar_diameter = PyResult.ok 50
    ∧ Cross_section.c_min_dur_of ("X0") bar_diameter
        = PyResult.ok (Cross_section.get_c_min_b bar_diameter)
    ∧ Cross_section.calculate_cnom (Cross_section.get_c_min_b bar_diameter) 15
        = max (max (Cross_section.get_c_min_b bar_diameter) 15) 10 + 10 := by
  refine ⟨?_, ?_, ?_, ?_, ?_, ?_, ?_, ?_, ?_, ?_, ?_, ?_⟩ <;>
    simp [Cross_section.c_min_dur_of, Cross_section.get_c_min_dur, Cross_section.get_c_min_b,
      Cross_section.calculate_cnom]

/-- C7 counterexample: under exposure class X0 the exposure-class minimum
changes with the bar diameter (20 versus 12), so it is not a fixed value
of the category group. -/
theorem C7_X0_depends_on_bar_diameter :
    Cross_section.c_min_dur_of ("X0") 20 = PyResult.ok 20
    ∧ Cross_section.c_min_dur_of ("X0") 12 = PyResult.ok 12
    ∧ (20:ℚ) ≠ 12 := by
  refine ⟨?_, ?_, by norm_num⟩ <;>
    norm_num [Cross_section.c_min_dur_of, Cross_section.get_c_min_dur, Cross_section.get_c_min_b]

/-- C8 (amended): for the ordinary-reinforced ULS solver, with positive
material and geometry parameters, positive reinforcement area and a
square-root operation satisfying its defining property on the discriminant
of the over-reinforced quadratic, the computed compression-zone factor
lies strictly between 0 and 1. The restriction to the ordinary solver is
forced by the counterexample on the mixed prestressed variant. -/
theorem C8_alpha_in_unit_interval (sqrt : ℚ → ℚ)
    (eps_cu3 eps_yd As Es fcd width d fyd lambda_factor netta : ℚ)
    (h1 : 0 < eps_cu3) (h2 : 0 < eps_yd) (h3 : 0 < As) (h4 : 0 < Es) (h5 : 0 < fcd)
    (h6 : 0 < width) (h7 : 0 < d) (h8 : 0 < fyd) (h9 : 0 < lambda_factor) (h10 : 0 < netta)
    (hs0 : 0 ≤ sqrt ((eps_cu3 * Es * As) ^ 2
      - 4 * (lambda_factor * netta * fcd * width * d) * (- (eps_cu3 * Es * As))))
    (hs2 : sqrt ((eps_cu3 * Es * As) ^ 2
      - 4 * (lambda_factor * netta * fcd * width * d) * (- (eps_cu3 * Es * As))) ^ 2
      = (eps_cu3 * Es * As) ^ 2
      - 4 * (lambda_factor * netta * fcd * width * d) * (- (eps_cu3 * Es * As))) :
    0 < ULS.calculate_alpha sqrt eps_cu3 eps_yd As Es fcd width d fyd lambda_factor netta
    ∧ ULS.calculate_alpha sqrt eps_cu3 eps_yd As Es fcd width d fyd lambda_factor netta < 1 := by
  have hsum : 0 < eps_cu3 + eps_yd := by linarith
  set ab := ULS.alpha_bal eps_cu3 eps_yd with hab
  have hab_pos : 0 < ab := div_pos h1 hsum
  have hab_lt : ab < 1 := by
    rw [hab, ULS.alpha_bal, div_lt_one hsum]; linarith
  set a := lambda_factor * netta * fcd * width * d with haa
  have ha : 0 < a := by rw [haa]; positivity
  set b := eps_cu3 * Es * As with hbb
  have hb : 0 < b := by rw [hbb]; positivity
  set s := sqrt (b ^ 2 - 4 * a * (- b)) with hss
  rw [ULS.calculate_alpha]
  split_ifs with hAs
  · constructor
    · positivity
    · have hbal : fyd * ULS.As_balanced eps_cu3 eps_yd width d fcd fyd lambda_factor netta
          = a * ab := by
        rw [ULS.As_balanced, ← hab, haa]
        field_simp
        ring
      have hle : fyd * As ≤ a * ab := by
        rw [← hbal]
        exact mul_le_mul_of_nonneg_left hAs (le_of_lt h8)
      rw [div_lt_one ha]
      calc fyd * As ≤ a * ab := hle
        _ < a * 1 := mul_lt_mul_of_pos_left hab_lt ha
        _ = a := mul_one a
  · rw [ULS.alpha_over]
    simp only [← haa, ← hbb, ← hss]
    have hsb : b < s := by
      have hfac : (s - b) * (s + b) = 4 * a * b := by
        linear_combination hs2
      nlinarith [hfac, mul_pos (mul_pos (by norm_num : (0:ℚ) < 4) ha) hb]
    have hmax : max ((- b + s) / (2 * a)) ((- b - s) / (2 * a)) = (- b + s) / (2 * a) := by
      apply max_eq_left
      apply (div_le_div_iff_of_pos_right (by linarith : (0:ℚ) < 2 * a)).mpr
      linarith
    rw [hmax]
    constructor
    · apply div_pos (by linarith) (by linarith)
    · rw [div_lt_one (by linarith : (0:ℚ) < 2 * a)]
      have hlt : s < 2 * a + b := by
        have hT : 0 < 2 * a + b := by linarith
        nlinarith [hs2]
      linarith

/-- C8 witness: a concrete under-reinforced configuration with alpha one
half. -/
theorem C8_alpha_in_unit_interval_witness :
    0 < ULS.calculate_alpha (fun _ => 3) 1 1 1 1 2 1 1 1 1 1
    ∧ ULS.calculate_alpha (fun _ => 3) 1 1 1 1 2 1 1 1 1 1 < 1 :=
  C8_alpha_in_unit_interval (fun _ => 3) 1 1 1 1 2 1 1 1 1 1 (by norm_num) (by norm_num)
    (by norm_num) (by norm_num) (by norm_num) (by norm_num) (by norm_num) (by norm_num)
    (by norm_num) (by norm_num) (by norm_num) (by norm_num)

/-- C8 counterexample: the prestressed-with-ordinary-top solver, on a
configuration with a positive prestress area of 93 (one strand) and a
heavy ordinary top reinforcement of 9000, computes alpha as the absolute
value of a negative under-reinforced expression and returns 2307/1904,
which is not below 1, refuting the claim for that variant. -/
theorem C8_mixed_variant_counterexample :
    (0:ℚ) < 93
    ∧ ULS_prestress_and_ordinary.calculate_alpha (fun _ => 0)
        (7/2000) 93 195000 17 (3/500) 300 700 1500 (4/5) 1 400 9000 = 2307 / 1904
    ∧ ¬ (ULS_prestress_and_ordinary.calculate_alpha (fun _ => 0)
        (7/2000) 93 195000 17 (3/500) 300 700 1500 (4/5) 1 400 9000 < 1) := by
  have h : ULS_prestress_and_ordinary.calculate_alpha (fun _ => 0)
      (7/2000) 93 195000 17 (3/500) 300 700 1500 (4/5) 1 400 9000 = 2307 / 1904 := by
    norm_num [ULS_prestress_and_ordinary.calculate_alpha, abs]
  exact ⟨by norm_num, h, by rw [h]; norm_num⟩

/-- C9: the deflection control returns true exactly when the limit, span
times 1000 over 250, strictly exceeds the total deflection; in particular
a total deflection exactly equal to the limit fails the control. -/
theorem C9_deflection_strict_inequality (length total_deflection : ℚ) :
    (Deflection.control_deflection length total_deflection = true
      ↔ (length * 1000) / 250 > total_deflection)
    ∧ Deflection.control_deflection length ((length * 1000) / 250) = false := by
  constructor
  · simp [Deflection.control_deflection]
  · simp [Deflection.control_deflection]

/-- Helper: a name and diameter pair outside the strand table receives no
index from the prestress lookup. -/
theorem strand_index_none_of_not_listed (nm : String) (dia : ℚ)
    (h : ¬ Material.in_strand_table nm dia) :
    Material.get_index_prestress (some nm) dia = none := by
  unfold Material.in_strand_table at h
  push_neg at h
  obtain ⟨h1, h2, h3, h4⟩ := h
  simp only [List.mem_cons, List.not_mem_nil, or_false, not_or] at h1 h2 h3 h4
  by_cases e1 : nm = "Y1860S3"
  · obtain ⟨d1, d2, d3⟩ := h1 e1
    simp [Material.get_index_prestress, e1, d1, d2, d3]
  · by_cases e2 : nm = "Y1860S7"
    · obtain ⟨d1, d2, d3, d4, d5, d6, d7⟩ := h2 e2
      simp [Material.get_index_prestress, e1, e2, d1, d2, d3, d4, d5, d6, d7]
    · by_cases e3 : nm = "Y1770S7"
      · obtain ⟨d1, d2, d3⟩ := h3 e3
        simp [Material.get_index_prestress, e1, e2, e3, d1, d2, d3]
      · obtain ⟨n1, n2, n3, n4, n5, n6, n7, n8, n9, n10⟩ := h4
        simp [Material.get_index_prestress, e1, e2, e3, n1, n2, n3, n4, n5, n6, n7, n8,
          n9, n10]

/-- C10: for a strand name that is not in the recognized table, or a
recognized name paired with a diameter not listed for it, the lookup
raises nothing: the prestress index is None, identical to the index of an
absent name, and every derived prestress property is 0. -/
theorem C10_unknown_strand_defaults (nm : String) (dia : ℚ)
    (h : ¬ Material.in_strand_table nm dia) :
    Material.get_index_prestress (some nm) dia = none
    ∧ Material.get_index_prestress (some nm) dia = Material.get_index_prestress none dia
    ∧ Material.get_fpk (Material.get_index_prestress (some nm) dia) = 0
    ∧ Material.get_Ap (Material.get_index_prestress (some nm) dia) = 0
    ∧ Material.get_Fpk (Material.get_index_prestress (some nm) dia) = 0
    ∧ Material.get_Fp01k (Material.get_index_prestress (some nm) dia) = 0
    ∧ Material.calculate_fp01k (Material.get_Fp01k (Material.get_index_prestress (some nm) dia))
        (Material.get_Ap (Material.get_index_prestress (some nm) dia))
        (Material.get_index_prestress (some nm) dia) = 0
    ∧ Material.calculate_fpd
        (Material.calculate_fp01k (Material.get_Fp01k (Material.get_index_prestress (some nm) dia))
          (Material.get_Ap (Material.get_index_prestress (some nm) dia))
          (Material.get_index_prestress (some nm) dia))
        (Material.get_index_prestress (some nm) dia) = 0 := by
  have hi := strand_index_none_of_not_listed nm dia h
  have hnone : Material.get_index_prestress none dia = none := by
    simp [Material.get_index_prestress]
  rw [hi, hnone]
  refine ⟨rfl, rfl, rfl, rfl, rfl, rfl, rfl, rfl⟩

/-- C10 witness: the recognized name Y1860S3 with the unlisted diameter 7
is outside the table and yields index None and fpk 0. -/
theorem C10_unknown_strand_defaults_witness :
    ¬ Material.in_strand_table ("Y1860S3") 7
    ∧ Material.get_index_prestress (some ("Y1860S3")) 7 = none
    ∧ Material.get_fpk (Material.get_index_prestress (some ("Y1860S3")) 7) = 0 := by
  have hh : ¬ Material.in_strand_table ("Y1860S3") 7 := by
    norm_num [Material.in_strand_table]
    decide
  have hmain := C10_unknown_strand_defaults ("Y1860S3") 7 hh
  exact ⟨hh, hmain.1, hmain.2.2.1⟩
